import Mathlib

/-!
Shallow embedding of the authentication core of the fastapi-mini-blog
repository (src/security.py, src/main.py, src/database.py, src/models/).

Modelling conventions:

* The users / posts / comments tables are lists of row structures, in
  insertion order; `fetch_one` of a `select().where(col == v)` is
  `List.find?`, `insert` appends a row whose id is the next sequential
  rowid (SQLite autoincrement on a table that only grows).
* Time is an integer count of seconds (the `exp` claim that python-jose
  stores is an integer unix timestamp).  `datetime.datetime.utcnow()` at
  each call site becomes an explicit `now : Int` parameter.
* HMAC-SHA256 (python-jose, HS256) is modelled symbolically: a signature
  is the pair of the signing key and the signed claim set, so that a
  signature verifies under a key iff it was produced under that key and
  over those claims.  This is the standard collision-free idealisation of
  a MAC; forging it is impossible in the model, as it is computationally
  infeasible in the library.  A bearer-token string that is not a
  well-formed signed structure is `RawToken.malformed`.
* PBKDF2-SHA256 (passlib) is modelled symbolically as well: the derived
  checksum of the digest string `$pbkdf2-sha256$rounds$salt$checksum` is
  the triple (password, salt, rounds), a collision-free idealisation of
  the key-derivation function.  The random per-call salt that passlib
  draws becomes an explicit `salt : Nat` parameter.  A stored string that
  does not parse as a recognised digest is `Digest.malformed`; on such a
  string passlib's `CryptContext.verify` raises
  `UnknownHashError`/`ValueError`, modelled as `Except.error`.
* A Python function that can raise returns `Except`; an HTTPException
  carries status code, detail and headers.
-/

deriving instance DecidableEq for Except

-- === Configuration constants (src/security.py) ==============================

def SECRET_KEY : String :=
  "9b73f2a1bdd7ae163444473d29a6885ffa22ab26117068f72a5a56a74d12d1fc"

def ALGORITHM : String := "HS256"

def ACCESS_TOKEN_EXPIRE_MINUTES : Int := 30

-- === Password hashing (passlib pbkdf2_sha256) ===============================

/-- Symbolic PBKDF2-HMAC-SHA256 derived checksum: idealised as the
collision-free function returning its inputs. -/
def pbkdf2Checksum (password : String) (salt rounds : Nat) :
    String × Nat × Nat :=
  (password, salt, rounds)

/-- A parsed `$pbkdf2-sha256$rounds$salt$checksum` digest string. -/
structure Pbkdf2Record where
  rounds : Nat
  salt : Nat
  checksum : String × Nat × Nat
deriving DecidableEq, Repr

/-- A stored password-hash string: either a well-formed pbkdf2-sha256
digest, or an arbitrary string that passlib cannot identify. -/
inductive Digest where
  | pbkdf2 (rec : Pbkdf2Record)
  | malformed (raw : String)
deriving DecidableEq, Repr

/-- Errors passlib raises to the caller. -/
inductive PasslibError where
  | unknownHash
deriving DecidableEq, Repr

/-- passlib default round count for pbkdf2_sha256 (1.7.x). -/
def PBKDF2_DEFAULT_ROUNDS : Nat := 29000

/-- CryptContext.hash for scheme pbkdf2_sha256: fresh random salt
(explicit parameter here), default rounds, derived checksum. -/
def cryptContextHash (salt : Nat) (password : String) : Digest :=
  .pbkdf2 ⟨PBKDF2_DEFAULT_ROUNDS, salt,
    pbkdf2Checksum password salt PBKDF2_DEFAULT_ROUNDS⟩

/-- CryptContext.verify: identify the digest, recompute the checksum with
the embedded salt and rounds, compare.  A string that no configured
scheme recognises raises UnknownHashError (a ValueError). -/
def cryptContextVerify (password : String) (d : Digest) :
    Except PasslibError Bool :=
  match d with
  | .pbkdf2 rec =>
      .ok (rec.checksum = pbkdf2Checksum password rec.salt rec.rounds)
  | .malformed _ => .error .unknownHash

/-- src/security.py get_password_hash: hash a plaintext password with
PBKDF2-SHA256 via passlib (salt made explicit). -/
def get_password_hash (salt : Nat) (password : String) : Digest :=
  cryptContextHash salt password

/-- src/security.py verify_password: delegate to passlib; any passlib
exception propagates to the caller. -/
def verify_password (plain_password : String) (hashed_password : Digest) :
    Except PasslibError Bool :=
  cryptContextVerify plain_password hashed_password

-- === JWT (python-jose, HS256) ===============================================

/-- The claim set create_access_token builds: a subject and an expiry
timestamp, each possibly absent in a hand-built token. -/
structure Claims where
  sub : Option String
  exp : Option Int
deriving DecidableEq, Repr

/-- Symbolic HMAC-SHA256 signature over the encoded claims: idealised as
the pair of key and message, verifying only under the signing key. -/
structure Mac where
  key : String
  message : Claims
deriving DecidableEq, Repr

def hmacSign (key : String) (claims : Claims) : Mac := ⟨key, claims⟩

/-- A compact token string: either a well-formed signed structure or a
string that does not parse as header.payload.signature. -/
inductive RawToken where
  | malformed (raw : String)
  | signed (claims : Claims) (mac : Mac)
deriving DecidableEq, Repr

/-- Exceptions of the JWTError hierarchy that jose.jwt.decode raises. -/
inductive JWTError where
  | malformedToken
  | invalidSignature
  | expiredSignature
deriving DecidableEq, Repr

/-- jose.jwt.encode: serialise the claims and sign them with the key. -/
def jwtEncode (claims : Claims) (key : String) : RawToken :=
  .signed claims (hmacSign key claims)

/-- jose.jwt.decode at current time `t`: parse the structure, verify the
signature against `key`, then validate the registered claims — an `exp`
claim earlier than now raises ExpiredSignatureError. -/
def jwtDecode (tok : RawToken) (key : String) (t : Int) :
    Except JWTError Claims :=
  match tok with
  | .malformed _ => .error .malformedToken
  | .signed claims mac =>
      if mac = hmacSign key claims then
        match claims.exp with
        | some e => if e < t then .error .expiredSignature else .ok claims
        | none => .ok claims
      else .error .invalidSignature

/-- src/security.py create_access_token, with the process-wide signing
secret made an explicit parameter (spec section 9 restates the secret as
configuration passed in); `now` is utcnow at the call. -/
def createAccessTokenWithKey (key : String) (now : Int) (id_ : String) :
    RawToken :=
  let expire : Int := now + ACCESS_TOKEN_EXPIRE_MINUTES * 60
  jwtEncode ⟨some id_, some expire⟩ key

/-- src/security.py create_access_token as written: signs under the
module-level SECRET_KEY. -/
def create_access_token (now : Int) (id_ : String) : RawToken :=
  createAccessTokenWithKey SECRET_KEY now id_

-- === Database rows (src/database.py) ========================================

/-- A row of the users table: id, username, password hash. -/
structure UserRow where
  id : Nat
  username : String
  password : Digest
deriving DecidableEq, Repr

/-- A row of the posts table. -/
structure PostRow where
  id : Nat
  body : String
  user_id : Nat
deriving DecidableEq, Repr

/-- A row of the comments table. -/
structure CommentRow where
  id : Nat
  body : String
  post_id : Nat
  user_id : Nat
deriving DecidableEq, Repr

-- === Auth helpers (src/security.py) =========================================

/-- src/security.py get_user: first users row whose username matches, or
none. -/
def get_user (db : List UserRow) (username : String) : Option UserRow :=
  db.find? (fun r => r.username == username)

/-- Python returns False (no user, or password mismatch) or the user row. -/
inductive AuthResult where
  | failure
  | success (user : UserRow)
deriving DecidableEq, Repr

/-- src/security.py authenticate_user: look the user up; absent or
non-verifying password collapses to the same failure value; a passlib
exception from verify_password propagates. -/
def authenticate_user (db : List UserRow) (username password : String) :
    Except PasslibError AuthResult :=
  match get_user db username with
  | none => .ok .failure
  | some user =>
      match verify_password password user.password with
      | .error e => .error e
      | .ok false => .ok .failure
      | .ok true => .ok (.success user)

-- === Current-user resolver (src/security.py get_current_user) ===============

/-- fastapi.HTTPException as raised by this code: status, detail,
headers. -/
structure HTTPError where
  status_code : Nat
  detail : String
  headers : List (String × String)
deriving DecidableEq, Repr

/-- The single exception object get_current_user raises on every
failure path. -/
def credentialsException : HTTPError :=
  ⟨401, "Could not validate credentials", [("WWW-Authenticate", "Bearer")]⟩

/-- src/security.py get_current_user: decode the bearer token under
SECRET_KEY, extract the sub claim, load the user; every failure raises
the one credentialsException. -/
def get_current_user (token : RawToken) (db : List UserRow) (t : Int) :
    Except HTTPError UserRow :=
  match jwtDecode token SECRET_KEY t with
  | .error _ => .error credentialsException
  | .ok payload =>
      match payload.sub with
      | none => .error credentialsException
      | some username =>
          match get_user db username with
          | none => .error credentialsException
          | some user => .ok user

/-- The spec's Token Service verify error kinds (section 4.2). -/
inductive VerifyError where
  | invalidToken
  | missingSubject
deriving DecidableEq, Repr

/-- The verification step inside get_current_user, before the collapse to
credentialsException: the jwt.decode call (whose JWTError failures are
the InvalidToken kind) followed by the sub extraction (whose None result
is the MissingSubject kind). -/
def tokenVerify (tok : RawToken) (key : String) (t : Int) :
    Except VerifyError String :=
  match jwtDecode tok key t with
  | .error _ => .error .invalidToken
  | .ok payload =>
      match payload.sub with
      | none => .error .missingSubject
      | some username => .ok username

-- === HTTP handlers (src/main.py) ============================================

/-- models/user.py UserIn: registration payload. -/
structure UserIn where
  username : String
  password : String
deriving DecidableEq, Repr

/-- The token body both /register and /token return. -/
structure TokenResponse where
  access_token : RawToken
  token_type : String
deriving DecidableEq, Repr

/-- src/main.py register: hash the password, insert the row (no duplicate
check anywhere on the path), issue a token for the username.  Returns the
updated users table and the response.  Salt and current time are the
implicit randomness and clock made explicit. -/
def register (db : List UserRow) (salt : Nat) (now : Int) (user : UserIn) :
    List UserRow × TokenResponse :=
  let hashed_password := get_password_hash salt user.password
  let db' := db ++ [⟨db.length + 1, user.username, hashed_password⟩]
  (db', ⟨create_access_token now user.username, "bearer"⟩)

/-- models/post.py CommentIn: incoming comment payload. -/
structure CommentIn where
  body : String
  post_id : Nat
deriving DecidableEq, Repr

/-- models/post.py CommentOut: response model for a created comment. -/
structure CommentOut where
  body : String
  post_id : Nat
  id : Nat
deriving DecidableEq, Repr

/-- The posts and comments tables threaded through create_comment. -/
structure AppState where
  posts : List PostRow
  comments : List CommentRow
deriving DecidableEq, Repr

/-- The HTTPException create_comment raises for a missing post. -/
def postNotFound : HTTPError := ⟨404, "Post not found", []⟩

/-- src/main.py create_comment: fetch the referenced post; if absent,
raise 404 before any insert (the state comes back unchanged); otherwise
insert the comment row and return the minimal response model. -/
def create_comment (st : AppState) (comment : CommentIn)
    (current_user_id : Nat) : Except HTTPError CommentOut × AppState :=
  match st.posts.find? (fun p => p.id == comment.post_id) with
  | none => (.error postNotFound, st)
  | some _ =>
      let last_record_id := st.comments.length + 1
      let row : CommentRow :=
        ⟨last_record_id, comment.body, comment.post_id, current_user_id⟩
      (.ok ⟨comment.body, comment.post_id, last_record_id⟩,
        { st with comments := st.comments ++ [row] })

-- === Shared helper lemmas ===================================================

/-- Decoding a freshly issued token at issuance time succeeds with the
claim set that was signed. -/
theorem jwtDecode_fresh (key : String) (now : Int) (s : String) :
    jwtDecode (createAccessTokenWithKey key now s) key now
      = .ok ⟨some s, some (now + ACCESS_TOKEN_EXPIRE_MINUTES * 60)⟩ := by
  unfold createAccessTokenWithKey jwtEncode jwtDecode
  have h : ¬ (now + ACCESS_TOKEN_EXPIRE_MINUTES * 60 < now) := by
    unfold ACCESS_TOKEN_EXPIRE_MINUTES
    omega
  simp [hmacSign, h]

-- === Claim theorems =========================================================

/-- Claim C1: a token produced by create_access_token for subject s,
when immediately passed to the jwt.decode step of get_current_user under
the same secret and algorithm (decode time = issuance time, before
expiry), yields the subject s unchanged as the sub claim. -/
theorem issue_then_decode_returns_subject (s : String) (now : Int) :
    (jwtDecode (create_access_token now s) SECRET_KEY now).map Claims.sub
      = .ok (some s) := by
  unfold create_access_token
  rw [jwtDecode_fresh]
  rfl

/-- Claim C2: the current-user resolver fails with the single
Unauthorized signal (401, detail "Could not validate credentials",
header WWW-Authenticate: Bearer) — first conjunct: every failure is that
one signal, so no sub-check is revealed — and it does fail in each
listed case: malformed token, bad signature, expired token, and decoded
subject with no matching user. -/
theorem resolver_uniform_unauthorized :
    (∀ tok db t e, get_current_user tok db t = .error e →
        e = credentialsException) ∧
    (∀ raw db t, get_current_user (.malformed raw) db t
        = .error credentialsException) ∧
    (∀ claims mac db t, mac ≠ hmacSign SECRET_KEY claims →
        get_current_user (.signed claims mac) db t
        = .error credentialsException) ∧
    (∀ claims e db t, claims.exp = some e → e < t →
        get_current_user (jwtEncode claims SECRET_KEY) db t
        = .error credentialsException) ∧
    (∀ s now db, (∀ r ∈ db, r.username ≠ s) →
        get_current_user (create_access_token now s) db now
        = .error credentialsException) := by
  refine ⟨?_, ?_, ?_, ?_, ?_⟩
  · intro tok db t e h
    unfold get_current_user at h
    split at h
    · exact (Except.error.inj h).symm
    · split at h
      · exact (Except.error.inj h).symm
      · split at h
        · exact (Except.error.inj h).symm
        · exact absurd h (by simp)
  · intro raw db t
    simp [get_current_user, jwtDecode]
  · intro claims mac db t h
    simp [get_current_user, jwtDecode, h]
  · intro claims e db t hexp hlt
    simp [get_current_user, jwtDecode, jwtEncode, hmacSign, hexp, hlt]
  · intro s now db h
    unfold get_current_user create_access_token
    rw [jwtDecode_fresh]
    have hnone : get_user db s = none := by
      unfold get_user
      rw [List.find?_eq_none]
      intro r hr
      simpa using h r hr
    simp [hnone]

/-- Witness for C2: concrete instantiations of each failure case. -/
theorem resolver_uniform_unauthorized_witness :
    get_current_user (.malformed "x") [] 0 = .error credentialsException ∧
    get_current_user (.signed ⟨some "a", none⟩ ⟨"wrongkey", ⟨some "a", none⟩⟩)
      [] 0 = .error credentialsException ∧
    get_current_user (jwtEncode ⟨some "a", some 0⟩ SECRET_KEY) [] 1
      = .error credentialsException ∧
    get_current_user (create_access_token 0 "alice") [] 0
      = .error credentialsException := by
  refine ⟨?_, ?_, ?_, ?_⟩
  · exact resolver_uniform_unauthorized.2.1 "x" [] 0
  · exact resolver_uniform_unauthorized.2.2.1 ⟨some "a", none⟩
      ⟨"wrongkey", ⟨some "a", none⟩⟩ [] 0 (by decide)
  · exact resolver_uniform_unauthorized.2.2.2.1 ⟨some "a", some 0⟩ 0 [] 1
      rfl (by decide)
  · exact resolver_uniform_unauthorized.2.2.2.2 "alice" 0 [] (by simp)

/-- Claim C3: a login attempt for an unregistered username and a login
attempt for an existing username with a non-matching password return the
same failure value from authenticate_user (Python False, here
AuthResult.failure) — the two cases are indistinguishable by the return
value. -/
theorem authenticate_indistinguishable (db : List UserRow)
    (u p u2 p2 : String) (r2 : UserRow)
    (h1 : get_user db u = none)
    (h2 : get_user db u2 = some r2)
    (h3 : verify_password p2 r2.password = .ok false) :
    authenticate_user db u p = .ok .failure ∧
    authenticate_user db u2 p2 = .ok .failure := by
  constructor
  · simp [authenticate_user, h1]
  · simp [authenticate_user, h2, h3]

/-- Witness for C3: store with only alice; bob is unregistered, alice's
password is not "wrongpass". -/
theorem authenticate_indistinguishable_witness :
    authenticate_user [⟨1, "alice", get_password_hash 0 "secret123"⟩]
        "bob" "anything" = .ok .failure ∧
    authenticate_user [⟨1, "alice", get_password_hash 0 "secret123"⟩]
        "alice" "wrongpass" = .ok .failure :=
  authenticate_indistinguishable
    [⟨1, "alice", get_password_hash 0 "secret123"⟩]
    "bob" "anything" "alice" "wrongpass"
    ⟨1, "alice", get_password_hash 0 "secret123"⟩
    (by decide) (by decide) (by decide)

/-- Counterexample to claim C4: at the concrete malformed digest string
"not-a-hash", verify_password raises passlib's UnknownHashError (a
ValueError) instead of returning false — the function is not total in
the claimed sense. -/
theorem verify_password_malformed_raises :
    verify_password "secret123" (.malformed "not-a-hash")
      = .error .unknownHash ∧
    verify_password "secret123" (.malformed "not-a-hash")
      ≠ .ok false := by
  constructor
  · rfl
  · decide

/-- Claim C4 as amended: a normal mismatch against a well-formed digest
returns false without raising, but a malformed digest string makes
verify_password propagate passlib's UnknownHashError/ValueError to the
caller rather than returning false. -/
theorem verify_password_mismatch_false_malformed_error :
    (∀ p1 p2 salt, p1 ≠ p2 →
       verify_password p1 (get_password_hash salt p2) = .ok false) ∧
    (∀ p raw, verify_password p (.malformed raw) = .error .unknownHash) := by
  constructor
  · intro p1 p2 salt h
    simp [verify_password, get_password_hash, cryptContextHash,
      cryptContextVerify, pbkdf2Checksum]
    exact fun heq => absurd heq.symm h
  · intro p raw
    rfl

/-- Witness for C4's amended theorem: concrete mismatch and concrete
malformed digest. -/
theorem verify_password_mismatch_false_malformed_error_witness :
    verify_password "a" (get_password_hash 0 "b") = .ok false ∧
    verify_password "a" (.malformed "garbage") = .error .unknownHash :=
  ⟨verify_password_mismatch_false_malformed_error.1 "a" "b" 0 (by decide),
   verify_password_mismatch_false_malformed_error.2 "a" "garbage"⟩

/-- Claim C5: the verification step (jwt.decode plus sub extraction
inside get_current_user) fails with the InvalidToken kind when the
structure is malformed, the signature does not verify, or the token is
expired, and with the distinct MissingSubject kind when the decoded
claim set has no sub; the two kinds are distinguishable. -/
theorem token_verify_error_kinds :
    (∀ raw key t, tokenVerify (.malformed raw) key t
        = .error .invalidToken) ∧
    (∀ claims mac key t, mac ≠ hmacSign key claims →
        tokenVerify (.signed claims mac) key t = .error .invalidToken) ∧
    (∀ claims e key t, claims.exp = some e → e < t →
        tokenVerify (jwtEncode claims key) key t = .error .invalidToken) ∧
    (∀ claims key t, claims.sub = none →
        (∀ e, claims.exp = some e → ¬ e < t) →
        tokenVerify (jwtEncode claims key) key t = .error .missingSubject) ∧
    VerifyError.invalidToken ≠ VerifyError.missingSubject := by
  refine ⟨?_, ?_, ?_, ?_, by decide⟩
  · intro raw key t
    rfl
  · intro claims mac key t h
    simp [tokenVerify, jwtDecode, h]
  · intro claims e key t hexp hlt
    simp [tokenVerify, jwtDecode, jwtEncode, hmacSign, hexp, hlt]
  · intro claims key t hsub hexp
    unfold tokenVerify jwtDecode jwtEncode
    simp only [hmacSign, if_pos rfl]
    match hc : claims.exp with
    | none => simp [hsub]
    | some e =>
        have := hexp e hc
        simp [this, hsub]

/-- Witness for C5: concrete tokens hitting each error kind. -/
theorem token_verify_error_kinds_witness :
    tokenVerify (.malformed "x") "k" 0 = .error .invalidToken ∧
    tokenVerify (.signed ⟨some "a", none⟩ ⟨"other", ⟨some "a", none⟩⟩) "k" 0
      = .error .invalidToken ∧
    tokenVerify (jwtEncode ⟨some "a", some 0⟩ "k") "k" 1
      = .error .invalidToken ∧
    tokenVerify (jwtEncode ⟨none, some 5⟩ "k") "k" 1
      = .error .missingSubject := by
  refine ⟨?_, ?_, ?_, ?_⟩
  · exact token_verify_error_kinds.1 "x" "k" 0
  · exact token_verify_error_kinds.2.1 ⟨some "a", none⟩
      ⟨"other", ⟨some "a", none⟩⟩ "k" 0 (by decide)
  · exact token_verify_error_kinds.2.2.1 ⟨some "a", some 0⟩ 0 "k" 1
      rfl (by decide)
  · exact token_verify_error_kinds.2.2.2.1 ⟨none, some 5⟩ "k" 1 rfl
      (by intro e he; injection he with he; omega)

/-- Counterexample to claim C6: in the scenario register("alice",
"secret123") followed by resolve of the issued token, the record the
resolver returns has the stored password hash as its password field —
contrary to the claim that the returned record contains neither the
plaintext password nor the stored hash. -/
theorem resolver_returns_stored_hash :
    (get_current_user (register [] 0 0 ⟨"alice", "secret123"⟩).2.access_token
        (register [] 0 0 ⟨"alice", "secret123"⟩).1 0).map UserRow.password
      = .ok (get_password_hash 0 "secret123") := by
  decide

/-- Claim C6 as amended: in the scenario register("alice", "secret123")
followed by resolve of the issued token, the resolver returns the full
alice users row — id, username, and the stored password hash (not the
plaintext; the plaintext is stored nowhere, but the raw row with the
hash is returned, and only the HTTP response models hide it). -/
theorem resolver_returns_alice_row :
    get_current_user (register [] 0 0 ⟨"alice", "secret123"⟩).2.access_token
        (register [] 0 0 ⟨"alice", "secret123"⟩).1 0
      = .ok ⟨1, "alice", get_password_hash 0 "secret123"⟩ := by
  decide

/-- Claim C7: for every password P, verify_password accepts P against
get_password_hash of P; two calls with independently drawn (hence
distinct) salts yield two different digests, and each independently
verifies P. -/
theorem salted_hash_verifies (p : String) (s1 s2 : Nat) (h : s1 ≠ s2) :
    verify_password p (get_password_hash s1 p) = .ok true ∧
    get_password_hash s1 p ≠ get_password_hash s2 p ∧
    verify_password p (get_password_hash s2 p) = .ok true := by
  refine ⟨?_, ?_, ?_⟩
  · simp [verify_password, get_password_hash, cryptContextHash,
      cryptContextVerify]
  · simp [get_password_hash, cryptContextHash, pbkdf2Checksum]
    intro heq
    exact absurd heq h
  · simp [verify_password, get_password_hash, cryptContextHash,
      cryptContextVerify]

/-- Witness for C7: password "pw" with salts 0 and 1. -/
theorem salted_hash_verifies_witness :
    verify_password "pw" (get_password_hash 0 "pw") = .ok true ∧
    get_password_hash 0 "pw" ≠ get_password_hash 1 "pw" ∧
    verify_password "pw" (get_password_hash 1 "pw") = .ok true :=
  salted_hash_verifies "pw" 0 1 (by decide)

/-- Claim C8: a token signed under secret k1 — whatever its claim
contents, in particular any token issued by the issuance function run
with k1 — fails signature verification when decoded under a different
secret k2: rotating the secret invalidates all previously issued
tokens. -/
theorem cross_key_verification_fails (k1 k2 : String) (h : k1 ≠ k2) :
    (∀ claims t, jwtDecode (jwtEncode claims k1) k2 t
        = .error .invalidSignature) ∧
    (∀ s now t, jwtDecode (createAccessTokenWithKey k1 now s) k2 t
        = .error .invalidSignature) := by
  have hmac : ∀ claims : Claims, hmacSign k1 claims ≠ hmacSign k2 claims := by
    intro claims heq
    exact h (congrArg Mac.key heq)
  constructor
  · intro claims t
    simp [jwtEncode, jwtDecode, hmac claims]
  · intro s now t
    simp [createAccessTokenWithKey, jwtEncode, jwtDecode,
      hmac ⟨some s, some (now + ACCESS_TOKEN_EXPIRE_MINUTES * 60)⟩]

/-- Witness for C8: a token issued under key "k1" is rejected under key
"k2". -/
theorem cross_key_verification_fails_witness :
    jwtDecode (jwtEncode ⟨some "alice", none⟩ "k1") "k2" 0
      = .error .invalidSignature ∧
    jwtDecode (createAccessTokenWithKey "k1" 0 "alice") "k2" 0
      = .error .invalidSignature :=
  ⟨(cross_key_verification_fails "k1" "k2" (by decide)).1
      ⟨some "alice", none⟩ 0,
   (cross_key_verification_fails "k1" "k2" (by decide)).2 "alice" 0 0⟩

/-- Claim C9: registration performs no duplicate-username check: on a
store already containing a user named u, registering u again simply
appends a second row with username u (the row count for u grows by one)
and still succeeds, returning the updated store and a bearer token. -/
theorem register_ignores_duplicate_username (db : List UserRow)
    (salt : Nat) (now : Int) (u p : String)
    (h : 0 < db.countP (fun r => r.username == u)) :
    (register db salt now ⟨u, p⟩).1
      = db ++ [⟨db.length + 1, u, get_password_hash salt p⟩] ∧
    (register db salt now ⟨u, p⟩).1.countP (fun r => r.username == u)
      = db.countP (fun r => r.username == u) + 1 ∧
    (register db salt now ⟨u, p⟩).2
      = ⟨create_access_token now u, "bearer"⟩ := by
  refine ⟨rfl, ?_, rfl⟩
  simp [register, List.countP_append, List.countP_cons]

/-- Witness for C9: a store already holding alice accepts a second alice
row. -/
theorem register_ignores_duplicate_username_witness :
    (register [⟨1, "alice", get_password_hash 0 "pw1"⟩] 1 0
        ⟨"alice", "pw2"⟩).1
      = [⟨1, "alice", get_password_hash 0 "pw1"⟩,
         ⟨2, "alice", get_password_hash 1 "pw2"⟩] ∧
    (register [⟨1, "alice", get_password_hash 0 "pw1"⟩] 1 0
        ⟨"alice", "pw2"⟩).1.countP (fun r => r.username == "alice") = 2 := by
  have h := register_ignores_duplicate_username
    [⟨1, "alice", get_password_hash 0 "pw1"⟩] 1 0 "alice" "pw2" (by decide)
  exact ⟨h.1, by rw [h.2.1]; decide⟩

/-- Claim C10: create_comment checks the referenced post before any
insert — when no post has the payload's post_id it fails with the 404
"Post not found" error and returns the state unchanged (comments table
untouched), and a successful result implies the referenced post
exists. -/
theorem create_comment_requires_existing_post :
    (∀ st c uid, (∀ post ∈ st.posts, post.id ≠ c.post_id) →
        create_comment st c uid = (.error postNotFound, st)) ∧
    (∀ st c uid out st2, create_comment st c uid = (.ok out, st2) →
        ∃ post ∈ st.posts, post.id = c.post_id) := by
  constructor
  · intro st c uid h
    have hnone : st.posts.find? (fun p => p.id == c.post_id) = none := by
      rw [List.find?_eq_none]
      intro post hpost
      simpa using h post hpost
    simp [create_comment, hnone]
  · intro st c uid out st2 h
    unfold create_comment at h
    match hf : st.posts.find? (fun p => p.id == c.post_id) with
    | none => rw [hf] at h; exact absurd h (by simp)
    | some post =>
        refine ⟨post, List.mem_of_find?_eq_some hf, ?_⟩
        have := List.find?_some hf
        simpa using this

/-- Witness for C10: commenting on post 1 in an empty store fails with
404 and leaves the state unchanged. -/
theorem create_comment_requires_existing_post_witness :
    create_comment ⟨[], []⟩ ⟨"hi", 1⟩ 1
      = (.error postNotFound, (⟨[], []⟩ : AppState)) :=
  create_comment_requires_existing_post.1 ⟨[], []⟩ ⟨"hi", 1⟩ 1 (by simp)
